import Mathlib

/-!
Shallow embedding of the per-tick simulation core of `bevy_pong`
(`src/main.rs`): spatial entity model, input mapper, integrator,
collision response, spawn functions, and the Update-schedule ordering
constraints declared in `main`.

Scalars are modelled as rationals (`ℚ`); 2-D vectors as pairs of
rationals.  Bevy's `Query::get_single` / `get_single_mut` succeed exactly
when the query matches one entity (its documented semantics: `Err` on
zero or on several matches); systems calling it are modelled as the
identity in every other case.  The AABB classifier `collide` comes from
the `bevy::sprite::collide_aabb` library, not from this repository, so
the collision system is parameterised over an arbitrary classifier
function returning `Option Collision`.
-/

namespace BevyPong

/-- A 2-D vector with rational components (models `bevy::Vec2`). -/
structure Vec2 where
  x : ℚ
  y : ℚ
deriving DecidableEq, Repr

instance : Add Vec2 := ⟨fun a b => ⟨a.x + b.x, a.y + b.y⟩⟩

/-- Componentwise scaling `Vec2 * f32` as used by the integrator. -/
instance : HMul Vec2 ℚ Vec2 := ⟨fun v s => ⟨v.x * s, v.y * s⟩⟩

/-- `const BALL_WIDTH: f32 = 10.;` -/
def BALL_WIDTH : ℚ := 10

/-- `const BALL_SPEED: f32 = 5.;` -/
def BALL_SPEED : ℚ := 5

/-- `const PADDLE_SPEED: f32 = 1.;` -/
def PADDLE_SPEED : ℚ := 1

/-- `const PADDLE_WIDTH: f32 = 10.;` -/
def PADDLE_WIDTH : ℚ := 10

/-- `const PADDLE_HEIGHT: f32 = 50.;` -/
def PADDLE_HEIGHT : ℚ := 50

/-- `const GUTTER_HEIGHT: f32 = 20.;` -/
def GUTTER_HEIGHT : ℚ := 20

/-- A Ball entity: the components of `BallBundle` (tag `Ball` implicit). -/
structure BallE where
  position : Vec2
  velocity : Vec2
  shape : Vec2
deriving DecidableEq, Repr

/-- A Paddle entity: the components of `PaddleBundle`; `isPlayer` records
whether the `Player` tag component is attached. -/
structure PaddleE where
  position : Vec2
  velocity : Vec2
  shape : Vec2
  isPlayer : Bool
deriving DecidableEq, Repr

/-- A Gutter entity: the components of `GutterBundle` (no velocity). -/
structure GutterE where
  position : Vec2
  shape : Vec2
deriving DecidableEq, Repr

/-- The sampled keyboard state the input mapper reads: whether `Up`
respectively `Down` is currently pressed. -/
structure KeyState where
  up : Bool
  down : Bool
deriving DecidableEq, Repr

/-- `BallBundle::new(x, y)` — ball at the origin with velocity `(x, y)`
and a square shape of side `BALL_WIDTH`. -/
def BallBundle.new (x y : ℚ) : BallE :=
  { position := ⟨0, 0⟩
    velocity := ⟨x, y⟩
    shape := ⟨BALL_WIDTH, BALL_WIDTH⟩ }

/-- `spawn_ball` spawns `BallBundle::new(1., 0.)`. -/
def spawn_ball : BallE := BallBundle.new 1 0

/-- `PaddleBundle::new(x, y)` with, additionally, whether the spawn site
attaches the `Player` tag. -/
def PaddleBundle.new (x y : ℚ) (player : Bool) : PaddleE :=
  { position := ⟨x, y⟩
    velocity := ⟨0, 0⟩
    shape := ⟨PADDLE_WIDTH, PADDLE_HEIGHT⟩
    isPlayer := player }

/-- `spawn_paddles`: the Player paddle on the right at
`window_width / 2 - padding`, the untagged paddle on the left at
`-window_width / 2 + padding`, with `padding = 50`. -/
def spawn_paddles (windowWidth : ℚ) : List PaddleE :=
  let padding : ℚ := 50
  [PaddleBundle.new (windowWidth / 2 - padding) 0 true,
   PaddleBundle.new (-windowWidth / 2 + padding) 0 false]

/-- `GutterBundle::new(x, y, w)`. -/
def GutterBundle.new (x y w : ℚ) : GutterE :=
  { position := ⟨x, y⟩
    shape := ⟨w, GUTTER_HEIGHT⟩ }

/-- `spawn_gutters`: top gutter at `window_height / 2 - GUTTER_HEIGHT / 2`,
bottom gutter at `-window_height / 2 + GUTTER_HEIGHT / 2`, both spanning
the window width. -/
def spawn_gutters (windowWidth windowHeight : ℚ) : List GutterE :=
  [GutterBundle.new 0 (windowHeight / 2 - GUTTER_HEIGHT / 2) windowWidth,
   GutterBundle.new 0 (-windowHeight / 2 + GUTTER_HEIGHT / 2) windowWidth]

/-- The contact classification returned by
`bevy::sprite::collide_aabb::collide`. -/
inductive Collision where
  | Left
  | Right
  | Top
  | Bottom
  | Inside
deriving DecidableEq, Repr

/-- An AABB classifier: ball position, ball size, other position, other
size ↦ optional contact side.  `bevy::sprite::collide_aabb::collide` is
one such function; the repository's own code is independent of which. -/
def Collide : Type := Vec2 → Vec2 → Vec2 → Vec2 → Option Collision

/-- The `match collision { ... }` arms of `handle_collisions`:
Left/Right flip `velocity.x` (`*= -1.`), Top/Bottom flip `velocity.y`,
Inside does nothing. -/
def resolveCollision (c : Collision) (v : Vec2) : Vec2 :=
  match c with
  | .Left => ⟨v.x * (-1), v.y⟩
  | .Right => ⟨v.x * (-1), v.y⟩
  | .Top => ⟨v.x, v.y * (-1)⟩
  | .Bottom => ⟨v.x, v.y * (-1)⟩
  | .Inside => v

/-- `move_ball`: on `ball.get_single_mut()` success (exactly one Ball),
`position.0 += velocity.0 * BALL_SPEED`; otherwise no-op. -/
def move_ball (balls : List BallE) : List BallE :=
  match balls with
  | [b] => [{ b with position := b.position + b.velocity * BALL_SPEED }]
  | bs => bs

/-- The velocity.y written by `handle_player_input`: Up pressed ⇒
`PADDLE_SPEED`, else Down pressed ⇒ `-PADDLE_SPEED`, else `0`. -/
def inputVelY (keys : KeyState) : ℚ :=
  if keys.up then PADDLE_SPEED
  else if keys.down then -PADDLE_SPEED
  else 0

/-- `handle_player_input`: on `paddle.get_single_mut()` success (exactly
one `Player`-tagged paddle) set that paddle's `velocity.0.y` from the key
state; otherwise no-op. -/
def handle_player_input (keys : KeyState) (paddles : List PaddleE) :
    List PaddleE :=
  if (paddles.filter (fun p => p.isPlayer)).length = 1 then
    paddles.map (fun p =>
      if p.isPlayer then { p with velocity := ⟨p.velocity.x, inputVelY keys⟩ }
      else p)
  else paddles

/-- The loop body of `move_paddles` for one paddle:
`new_position = position.0 + velocity.0 * PADDLE_SPEED`, applied only if
`new_position.y.abs() < window_height / 2. - GUTTER_HEIGHT - PADDLE_HEIGHT / 2.`. -/
def paddleStep (windowHeight : ℚ) (p : PaddleE) : PaddleE :=
  let newPosition := p.position + p.velocity * PADDLE_SPEED
  if |newPosition.y| < windowHeight / 2 - GUTTER_HEIGHT - PADDLE_HEIGHT / 2 then
    { p with position := newPosition }
  else p

/-- `move_paddles`: on `window.get_single()` success, step every paddle;
otherwise no-op. -/
def move_paddles (windows : List ℚ) (paddles : List PaddleE) : List PaddleE :=
  match windows with
  | [h] => paddles.map (paddleStep h)
  | _ => paddles

/-- `handle_collisions`: on `ball.get_single_mut()` success, iterate
over every non-Ball `(Position, Shape)` entity in query order and, at
each overlap reported by the classifier, apply the matching velocity
response to the ball's current velocity; otherwise no-op.  The ball's
position and shape are not written by this system, so the classifier
sees the same ball box at every entity of one tick. -/
def handle_collisions (collide : Collide) (balls : List BallE)
    (otherThings : List (Vec2 × Vec2)) : List BallE :=
  match balls with
  | [b] =>
    [{ b with
        velocity := otherThings.foldl (fun v o =>
          match collide b.position b.shape o.1 o.2 with
          | some c => resolveCollision c v
          | none => v) b.velocity }]
  | bs => bs

/-- The whole simulation state the Update systems read and write:
`windows` models the `Query<&Window>` result (heights). -/
structure World where
  balls : List BallE
  paddles : List PaddleE
  gutters : List GutterE
  windows : List ℚ
deriving DecidableEq, Repr

/-- The `other_things` query of `handle_collisions`:
`(&Position, &Shape)` without the `Ball` tag — every paddle and gutter. -/
def otherThings (w : World) : List (Vec2 × Vec2) :=
  w.paddles.map (fun p => (p.position, p.shape)) ++
    w.gutters.map (fun g => (g.position, g.shape))

/-- The five systems `main` registers in the `Update` schedule. -/
inductive Sys where
  | moveBall
  | handlePlayerInput
  | movePaddles
  | projectPositions
  | handleCollisions
deriving DecidableEq, Repr

/-- Running one system on the world.  `project_positions` copies
`Position` into the render `Transform` and touches no simulation
component, so on `World` it is the identity. -/
def runSys (collide : Collide) (keys : KeyState) (w : World) (s : Sys) :
    World :=
  match s with
  | .moveBall => { w with balls := move_ball w.balls }
  | .handlePlayerInput =>
    { w with paddles := handle_player_input keys w.paddles }
  | .movePaddles => { w with paddles := move_paddles w.windows w.paddles }
  | .projectPositions => w
  | .handleCollisions =>
    { w with balls := handle_collisions collide w.balls (otherThings w) }

/-- Running the systems of one tick in a given order. -/
def runSchedule (collide : Collide) (keys : KeyState) (w : World)
    (sched : List Sys) : World :=
  sched.foldl (runSys collide keys) w

/-- Running several ticks, each with its own key state and system order. -/
def runTicks (collide : Collide) (w : World)
    (ticks : List (KeyState × List Sys)) : World :=
  ticks.foldl (fun w t => runSchedule collide t.1 w t.2) w

/-- The five Update systems, as listed in `main`. -/
def allSystems : List Sys :=
  [.moveBall, .handlePlayerInput, .movePaddles, .projectPositions,
   .handleCollisions]

/-- The `.after` edges `main` declares: `(a, b)` means `a.after(b)`.
They are `move_paddles.after(handle_player_input)`,
`project_positions.after(move_ball)` and
`handle_collisions.after(move_ball)` — nothing else. -/
def afterConstraints : List (Sys × Sys) :=
  [(.movePaddles, .handlePlayerInput),
   (.projectPositions, .moveBall),
   (.handleCollisions, .moveBall)]

/-- A run order the Bevy scheduler may choose for one tick: a
permutation of the five Update systems in which every declared `.after`
edge is respected. -/
def validSchedule (l : List Sys) : Prop :=
  l.Perm allSystems ∧
    ∀ p ∈ afterConstraints, l.indexOf p.2 < l.indexOf p.1

instance (l : List Sys) : Decidable (validSchedule l) := by
  unfold validSchedule; infer_instance

/-- The schedule `[move_ball, handle_collisions, handle_player_input,
move_paddles, project_positions]`: it respects every `.after` edge of
`main`, yet runs collision detection before paddle integration. -/
def collisionsFirstSched : List Sys :=
  [.moveBall, .handleCollisions, .handlePlayerInput, .movePaddles,
   .projectPositions]

/-- Every paddle's vertical position lies strictly inside the open bound
`B` (the legal band between the gutters). -/
def paddlesBounded (B : ℚ) (ps : List PaddleE) : Prop :=
  ∀ p ∈ ps, |p.position.y| < B

/-- The tick invariant: the window query yields exactly the height `h`
and every paddle sits strictly inside the legal band computed from `h`. -/
def WInv (h : ℚ) (w : World) : Prop :=
  w.windows = [h] ∧
    paddlesBounded (h / 2 - GUTTER_HEIGHT - PADDLE_HEIGHT / 2) w.paddles

/- ------------------------------------------------------------------ -/
/- Helper lemmas                                                      -/
/- ------------------------------------------------------------------ -/

lemma Vec2.add_def (a b : Vec2) : a + b = ⟨a.x + b.x, a.y + b.y⟩ := rfl

lemma Vec2.smul_def (v : Vec2) (s : ℚ) : v * s = ⟨v.x * s, v.y * s⟩ := rfl

lemma paddleStep_eq (h : ℚ) (p : PaddleE) :
    paddleStep h p =
      if |(p.position + p.velocity * PADDLE_SPEED).y| <
          h / 2 - GUTTER_HEIGHT - PADDLE_HEIGHT / 2
        then { p with position := p.position + p.velocity * PADDLE_SPEED }
        else p := rfl

lemma resolveCollision_x (c : Collision) (hc : c = .Left ∨ c = .Right)
    (v : Vec2) : resolveCollision c v = ⟨-v.x, v.y⟩ := by
  rcases hc with rfl | rfl <;> simp [resolveCollision, mul_neg_one]

lemma resolveCollision_y (c : Collision) (hc : c = .Top ∨ c = .Bottom)
    (v : Vec2) : resolveCollision c v = ⟨v.x, -v.y⟩ := by
  rcases hc with rfl | rfl <;> simp [resolveCollision, mul_neg_one]

lemma resolveCollision_inside (v : Vec2) :
    resolveCollision .Inside v = v := rfl

lemma handle_collisions_single (collide : Collide) (b : BallE)
    (o : Vec2 × Vec2) (c : Collision)
    (hc : collide b.position b.shape o.1 o.2 = some c) :
    handle_collisions collide [b] [o] =
      [{ b with velocity := resolveCollision c b.velocity }] := by
  simp [handle_collisions, hc]

lemma Vec2.eta (v : Vec2) : (⟨v.x, v.y⟩ : Vec2) = v := rfl

lemma handle_collisions_pair (collide : Collide) (b : BallE)
    (o1 o2 : Vec2 × Vec2) (c1 c2 : Collision)
    (h1 : collide b.position b.shape o1.1 o1.2 = some c1)
    (h2 : collide b.position b.shape o2.1 o2.2 = some c2) :
    handle_collisions collide [b] [o1, o2] =
      [{ b with
          velocity := resolveCollision c2 (resolveCollision c1 b.velocity) }] := by
  simp [handle_collisions, h1, h2]

lemma move_ball_not_single (bs : List BallE) (hb : bs.length ≠ 1) :
    move_ball bs = bs := by
  match bs with
  | [] => rfl
  | [b] => exact absurd rfl hb
  | b1 :: b2 :: rest => rfl

lemma handle_collisions_not_single (collide : Collide) (bs : List BallE)
    (others : List (Vec2 × Vec2)) (hb : bs.length ≠ 1) :
    handle_collisions collide bs others = bs := by
  match bs with
  | [] => rfl
  | [b] => exact absurd rfl hb
  | b1 :: b2 :: rest => rfl

lemma handle_player_input_not_single (keys : KeyState) (ps : List PaddleE)
    (hp : (ps.filter (fun p => p.isPlayer)).length ≠ 1) :
    handle_player_input keys ps = ps := by
  unfold handle_player_input
  rw [if_neg hp]

lemma handle_player_input_bounded (keys : KeyState) (B : ℚ)
    (ps : List PaddleE) (hb : paddlesBounded B ps) :
    paddlesBounded B (handle_player_input keys ps) := by
  intro p hp
  unfold handle_player_input at hp
  split at hp
  · obtain ⟨q, hq, rfl⟩ := List.mem_map.1 hp
    split
    · exact hb q hq
    · exact hb q hq
  · exact hb p hp

lemma paddleStep_bound (h : ℚ) (p : PaddleE)
    (hp : |p.position.y| < h / 2 - GUTTER_HEIGHT - PADDLE_HEIGHT / 2) :
    |(paddleStep h p).position.y| <
      h / 2 - GUTTER_HEIGHT - PADDLE_HEIGHT / 2 := by
  rw [paddleStep_eq]
  split
  · next hcond => exact hcond
  · exact hp

lemma runSys_winv (collide : Collide) (keys : KeyState) (h : ℚ)
    (w : World) (s : Sys) (hi : WInv h w) :
    WInv h (runSys collide keys w s) := by
  obtain ⟨hw, hb⟩ := hi
  cases s with
  | moveBall => exact ⟨hw, hb⟩
  | handlePlayerInput => exact ⟨hw, handle_player_input_bounded keys _ _ hb⟩
  | movePaddles =>
    refine ⟨hw, ?_⟩
    show paddlesBounded _ (move_paddles w.windows w.paddles)
    rw [hw]
    have hmap : move_paddles [h] w.paddles = w.paddles.map (paddleStep h) :=
      rfl
    rw [hmap]
    intro p hp
    obtain ⟨q, hq, rfl⟩ := List.mem_map.1 hp
    exact paddleStep_bound h q (hb q hq)
  | projectPositions => exact ⟨hw, hb⟩
  | handleCollisions => exact ⟨hw, hb⟩

lemma runSchedule_winv (collide : Collide) (keys : KeyState) (h : ℚ)
    (sched : List Sys) :
    ∀ w : World, WInv h w → WInv h (runSchedule collide keys w sched) := by
  induction sched with
  | nil => exact fun w hi => hi
  | cons s rest ih =>
    intro w hi
    exact ih (runSys collide keys w s) (runSys_winv collide keys h w s hi)

lemma runTicks_winv (collide : Collide) (h : ℚ)
    (ticks : List (KeyState × List Sys)) :
    ∀ w : World, WInv h w → WInv h (runTicks collide w ticks) := by
  induction ticks with
  | nil => exact fun w hi => hi
  | cons t rest ih =>
    intro w hi
    exact ih (runSchedule collide t.1 w t.2)
      (runSchedule_winv collide t.1 h t.2 w hi)

lemma runSys_gutters (collide : Collide) (keys : KeyState) (w : World)
    (s : Sys) : (runSys collide keys w s).gutters = w.gutters := by
  cases s <;> rfl

lemma runSchedule_gutters (collide : Collide) (keys : KeyState)
    (sched : List Sys) :
    ∀ w : World, (runSchedule collide keys w sched).gutters = w.gutters := by
  induction sched with
  | nil => exact fun w => rfl
  | cons s rest ih =>
    intro w
    calc (runSchedule collide keys (runSys collide keys w s) rest).gutters
        = (runSys collide keys w s).gutters := ih _
      _ = w.gutters := runSys_gutters collide keys w s

lemma runTicks_gutters (collide : Collide)
    (ticks : List (KeyState × List Sys)) :
    ∀ w : World, (runTicks collide w ticks).gutters = w.gutters := by
  induction ticks with
  | nil => exact fun w => rfl
  | cons t rest ih =>
    intro w
    calc (runTicks collide (runSchedule collide t.1 w t.2) rest).gutters
        = (runSchedule collide t.1 w t.2).gutters := ih _
      _ = w.gutters := runSchedule_gutters collide t.1 t.2 w

/- ------------------------------------------------------------------ -/
/- Claim theorems                                                     -/
/- ------------------------------------------------------------------ -/

/-- C1 (counterexample): the claim says every valid run order of the
Update systems places paddle integration before collision detection.
`collisionsFirstSched` is a valid order — it satisfies every `.after`
constraint `main` declares — in which collision detection runs before
`move_paddles`, so collision detection there reads the paddles'
pre-integration positions. -/
theorem c1_schedule_counterexample :
    validSchedule collisionsFirstSched ∧
      ¬ collisionsFirstSched.indexOf Sys.movePaddles <
          collisionsFirstSched.indexOf Sys.handleCollisions := by
  decide

/-- C1 (amended): in every valid run order of the Update systems, Ball
integration (`move_ball`) completes before collision detection
(`handle_collisions`) — that much `main` does constrain; no ordering
between paddle integration and collision detection is guaranteed. -/
theorem c1_ball_before_collisions (l : List Sys) (h : validSchedule l) :
    l.indexOf Sys.moveBall < l.indexOf Sys.handleCollisions :=
  h.2 (Sys.handleCollisions, Sys.moveBall) (by decide)

theorem c1_ball_before_collisions_witness :
    validSchedule collisionsFirstSched ∧
      collisionsFirstSched.indexOf Sys.moveBall <
        collisionsFirstSched.indexOf Sys.handleCollisions :=
  ⟨by decide, c1_ball_before_collisions collisionsFirstSched (by decide)⟩

/-- C2: one paddle-integration step computes
`candidate = position + velocity * PADDLE_SPEED` and moves to it exactly
when `|candidate.y| < windowHeight/2 - GUTTER_HEIGHT - PADDLE_HEIGHT/2`,
otherwise leaves the position exactly unchanged (no clamping to the
boundary); velocity, shape and tag are untouched, and `move_paddles`
with a single window applies this step to every paddle. -/
theorem c2_paddle_candidate (h : ℚ) (p : PaddleE) (ps : List PaddleE) :
    (paddleStep h p).position =
      (if |(p.position + p.velocity * PADDLE_SPEED).y| <
          h / 2 - GUTTER_HEIGHT - PADDLE_HEIGHT / 2
        then p.position + p.velocity * PADDLE_SPEED else p.position) ∧
    (paddleStep h p).velocity = p.velocity ∧
    (paddleStep h p).shape = p.shape ∧
    (paddleStep h p).isPlayer = p.isPlayer ∧
    move_paddles [h] ps = ps.map (paddleStep h) := by
  refine ⟨?_, ?_, ?_, ?_, rfl⟩ <;> (rw [paddleStep_eq]; split <;> rfl)

/-- C3: a resolved contact classified Left or Right negates exactly the
ball's velocity.x, Top or Bottom negates exactly velocity.y, and Inside
leaves the velocity unchanged. -/
theorem c3_collision_response (collide : Collide) (b : BallE)
    (o : Vec2 × Vec2) (c : Collision)
    (hc : collide b.position b.shape o.1 o.2 = some c) :
    handle_collisions collide [b] [o] =
      [{ b with velocity := resolveCollision c b.velocity }] ∧
    ((c = .Left ∨ c = .Right) →
      resolveCollision c b.velocity = ⟨-b.velocity.x, b.velocity.y⟩) ∧
    ((c = .Top ∨ c = .Bottom) →
      resolveCollision c b.velocity = ⟨b.velocity.x, -b.velocity.y⟩) ∧
    (c = .Inside → resolveCollision c b.velocity = b.velocity) :=
  ⟨handle_collisions_single collide b o c hc,
   fun hx => resolveCollision_x c hx b.velocity,
   fun hy => resolveCollision_y c hy b.velocity,
   fun hi => hi ▸ resolveCollision_inside b.velocity⟩

theorem c3_collision_response_witness :
    ((fun _ _ _ _ => some Collision.Left : Collide)
        (⟨0, 0⟩ : Vec2) ⟨10, 10⟩ ⟨3, 0⟩ ⟨10, 50⟩ = some Collision.Left) ∧
    handle_collisions (fun _ _ _ _ => some Collision.Left)
        [⟨⟨0, 0⟩, ⟨1, 2⟩, ⟨10, 10⟩⟩] [(⟨3, 0⟩, ⟨10, 50⟩)] =
      [⟨⟨0, 0⟩, ⟨-1, 2⟩, ⟨10, 10⟩⟩] := by
  have h := c3_collision_response (fun _ _ _ _ => some Collision.Left)
    ⟨⟨0, 0⟩, ⟨1, 2⟩, ⟨10, 10⟩⟩ (⟨3, 0⟩, ⟨10, 50⟩) .Left rfl
  exact ⟨rfl, by rw [h.1, h.2.1 (Or.inl rfl)]⟩

/-- C4: with exactly one Ball, integration sets
`position := position + velocity * BALL_SPEED`; from `(0,0)` with
velocity `(1,0)` and `BALL_SPEED = 5` one tick yields `(5,0)` exactly. -/
theorem c4_ball_integration :
    (∀ b : BallE,
      move_ball [b] =
        [{ b with position := b.position + b.velocity * BALL_SPEED }]) ∧
    move_ball [⟨⟨0, 0⟩, ⟨1, 0⟩, ⟨BALL_WIDTH, BALL_WIDTH⟩⟩] =
      [⟨⟨5, 0⟩, ⟨1, 0⟩, ⟨BALL_WIDTH, BALL_WIDTH⟩⟩] :=
  ⟨fun _ => rfl, by
    simp only [move_ball, Vec2.add_def, Vec2.smul_def, BALL_SPEED]
    norm_num⟩

/-- C5: with exactly one Player paddle, the input mapper sets that
paddle's velocity.y purely from the current key state — Up ⇒
`PADDLE_SPEED` (which is 1), else Down ⇒ `-PADDLE_SPEED`, else 0 —
independent of the prior velocity.y, leaves its velocity.x and position
alone, and does not touch the non-Player paddle at all. -/
theorem c5_input_mapping (keys : KeyState)
    (ppos pvel pshape qpos qvel qshape : Vec2) :
    handle_player_input keys
        [⟨ppos, pvel, pshape, true⟩, ⟨qpos, qvel, qshape, false⟩] =
      [⟨ppos, ⟨pvel.x, inputVelY keys⟩, pshape, true⟩,
       ⟨qpos, qvel, qshape, false⟩] ∧
    (∀ d : Bool, inputVelY ⟨true, d⟩ = PADDLE_SPEED) ∧
    inputVelY ⟨false, true⟩ = -PADDLE_SPEED ∧
    inputVelY ⟨false, false⟩ = 0 ∧
    PADDLE_SPEED = 1 :=
  ⟨rfl, fun _ => rfl, rfl, rfl, rfl⟩

/-- C6: starting from the spawned paddles (both at y = 0) in a window
whose height makes that start legal, after any number of ticks — any key
states, any valid-or-not system orders — every paddle's vertical
position still satisfies
`|y| < windowHeight/2 - GUTTER_HEIGHT - PADDLE_HEIGHT/2`. -/
theorem c6_paddle_invariant (collide : Collide) (ww h : ℚ) (w : World)
    (ticks : List (KeyState × List Sys))
    (hwin : w.windows = [h]) (hpad : w.paddles = spawn_paddles ww)
    (hlegal : 0 < h / 2 - GUTTER_HEIGHT - PADDLE_HEIGHT / 2) :
    ∀ p ∈ (runTicks collide w ticks).paddles,
      |p.position.y| < h / 2 - GUTTER_HEIGHT - PADDLE_HEIGHT / 2 := by
  have hb : paddlesBounded (h / 2 - GUTTER_HEIGHT - PADDLE_HEIGHT / 2)
      w.paddles := by
    rw [hpad]
    intro p hp
    simp only [spawn_paddles, List.mem_cons, List.mem_singleton,
      List.not_mem_nil, or_false] at hp
    rcases hp with rfl | rfl <;> simpa [PaddleBundle.new] using hlegal
  exact (runTicks_winv collide h ticks w ⟨hwin, hb⟩).2

theorem c6_paddle_invariant_witness :
    (World.mk [spawn_ball] (spawn_paddles 800) (spawn_gutters 800 600)
        [600]).windows = [600] ∧
    (World.mk [spawn_ball] (spawn_paddles 800) (spawn_gutters 800 600)
        [600]).paddles = spawn_paddles 800 ∧
    (0 : ℚ) < 600 / 2 - GUTTER_HEIGHT - PADDLE_HEIGHT / 2 ∧
    ∀ p ∈ (runTicks (fun _ _ _ _ => none)
        (World.mk [spawn_ball] (spawn_paddles 800) (spawn_gutters 800 600)
          [600])
        [(⟨true, false⟩, allSystems)]).paddles,
      |p.position.y| < 600 / 2 - GUTTER_HEIGHT - PADDLE_HEIGHT / 2 :=
  ⟨rfl, rfl, by norm_num [GUTTER_HEIGHT, PADDLE_HEIGHT],
   c6_paddle_invariant (fun _ _ _ _ => none) 800 600 _ _ rfl rfl
     (by norm_num [GUTTER_HEIGHT, PADDLE_HEIGHT])⟩

/-- C7: two overlaps in one tick are resolved one after the other in
entity-iteration order with no de-duplication: the resulting velocity is
the second response applied to the first response's output; two
same-axis contacts restore the velocity exactly, and contacts on the two
different axes flip both components. -/
theorem c7_sequential_overlaps (collide : Collide) (b : BallE)
    (o1 o2 : Vec2 × Vec2) (c1 c2 : Collision)
    (h1 : collide b.position b.shape o1.1 o1.2 = some c1)
    (h2 : collide b.position b.shape o2.1 o2.2 = some c2) :
    handle_collisions collide [b] [o1, o2] =
      [{ b with
          velocity := resolveCollision c2 (resolveCollision c1 b.velocity) }] ∧
    ((c1 = .Left ∨ c1 = .Right) → (c2 = .Left ∨ c2 = .Right) →
      resolveCollision c2 (resolveCollision c1 b.velocity) = b.velocity) ∧
    ((c1 = .Top ∨ c1 = .Bottom) → (c2 = .Top ∨ c2 = .Bottom) →
      resolveCollision c2 (resolveCollision c1 b.velocity) = b.velocity) ∧
    ((c1 = .Left ∨ c1 = .Right) → (c2 = .Top ∨ c2 = .Bottom) →
      resolveCollision c2 (resolveCollision c1 b.velocity) =
        ⟨-b.velocity.x, -b.velocity.y⟩) := by
  refine ⟨handle_collisions_pair collide b o1 o2 c1 c2 h1 h2, ?_, ?_, ?_⟩
  · intro hx1 hx2
    rw [resolveCollision_x c1 hx1, resolveCollision_x c2 hx2]
    simp [Vec2.eta]
  · intro hy1 hy2
    rw [resolveCollision_y c1 hy1, resolveCollision_y c2 hy2]
    simp [Vec2.eta]
  · intro hx1 hy2
    rw [resolveCollision_x c1 hx1, resolveCollision_y c2 hy2]

theorem c7_sequential_overlaps_witness :
    ((fun _ _ _ _ => some Collision.Left : Collide)
        (⟨0, 0⟩ : Vec2) ⟨10, 10⟩ ⟨3, 0⟩ ⟨10, 50⟩ = some Collision.Left) ∧
    ((fun _ _ _ _ => some Collision.Left : Collide)
        (⟨0, 0⟩ : Vec2) ⟨10, 10⟩ ⟨-3, 0⟩ ⟨10, 50⟩ = some Collision.Left) ∧
    handle_collisions (fun _ _ _ _ => some Collision.Left)
        [⟨⟨0, 0⟩, ⟨1, 2⟩, ⟨10, 10⟩⟩] [(⟨3, 0⟩, ⟨10, 50⟩), (⟨-3, 0⟩, ⟨10, 50⟩)] =
      [⟨⟨0, 0⟩, ⟨1, 2⟩, ⟨10, 10⟩⟩] := by
  have h := c7_sequential_overlaps (fun _ _ _ _ => some Collision.Left)
    ⟨⟨0, 0⟩, ⟨1, 2⟩, ⟨10, 10⟩⟩ (⟨3, 0⟩, ⟨10, 50⟩) (⟨-3, 0⟩, ⟨10, 50⟩)
    .Left .Left rfl rfl
  exact ⟨rfl, rfl, by
    rw [h.1, h.2.1 (Or.inl rfl) (Or.inl rfl)]⟩

/-- C8: the gutters are spawned from the arena dimensions — top at
`windowHeight/2 - GUTTER_HEIGHT/2`, bottom at its exact negation, both
of shape `(windowWidth, GUTTER_HEIGHT)` — and no tick, whatever the
system order, key state or Ball/Paddle activity, ever changes any
gutter's Position or Shape. -/
theorem c8_gutters_fixed (windowWidth windowHeight : ℚ)
    (collide : Collide) (keys : KeyState) (w : World) (sched : List Sys)
    (ticks : List (KeyState × List Sys)) :
    spawn_gutters windowWidth windowHeight =
      [⟨⟨0, windowHeight / 2 - GUTTER_HEIGHT / 2⟩,
        ⟨windowWidth, GUTTER_HEIGHT⟩⟩,
       ⟨⟨0, -(windowHeight / 2 - GUTTER_HEIGHT / 2)⟩,
        ⟨windowWidth, GUTTER_HEIGHT⟩⟩] ∧
    (runSchedule collide keys w sched).gutters = w.gutters ∧
    (runTicks collide w ticks).gutters = w.gutters := by
  refine ⟨?_, runSchedule_gutters collide keys sched w,
    runTicks_gutters collide ticks w⟩
  simp only [spawn_gutters, GutterBundle.new, List.cons.injEq,
    GutterE.mk.injEq, Vec2.mk.injEq, and_true, true_and]
  ring

/-- C9: with no Ball entity, ball integration and collision handling
leave the whole world unchanged; with no Player paddle, input mapping
leaves the whole world unchanged — silent no-ops, no other entity state
is touched. -/
theorem c9_missing_singleton (collide : Collide) (keys : KeyState)
    (w : World) (hball : w.balls = [])
    (hplayer : w.paddles.filter (fun p => p.isPlayer) = []) :
    runSys collide keys w Sys.moveBall = w ∧
    runSys collide keys w Sys.handleCollisions = w ∧
    runSys collide keys w Sys.handlePlayerInput = w := by
  refine ⟨?_, ?_, ?_⟩
  · show { w with balls := move_ball w.balls } = w
    rw [move_ball_not_single w.balls (by rw [hball]; decide)]
  · show { w with balls := handle_collisions collide w.balls (otherThings w) } = w
    rw [handle_collisions_not_single collide w.balls (otherThings w)
      (by rw [hball]; decide)]
  · show { w with paddles := handle_player_input keys w.paddles } = w
    rw [handle_player_input_not_single keys w.paddles
      (by rw [hplayer]; decide)]

theorem c9_missing_singleton_witness :
    (World.mk [] [PaddleBundle.new 350 0 false] (spawn_gutters 800 600)
        [600]).balls = [] ∧
    (World.mk [] [PaddleBundle.new 350 0 false] (spawn_gutters 800 600)
        [600]).paddles.filter (fun p => p.isPlayer) = [] ∧
    (runSys (fun _ _ _ _ => none) ⟨false, false⟩
        (World.mk [] [PaddleBundle.new 350 0 false] (spawn_gutters 800 600)
          [600]) Sys.moveBall =
      World.mk [] [PaddleBundle.new 350 0 false] (spawn_gutters 800 600)
        [600] ∧
    runSys (fun _ _ _ _ => none) ⟨false, false⟩
        (World.mk [] [PaddleBundle.new 350 0 false] (spawn_gutters 800 600)
          [600]) Sys.handleCollisions =
      World.mk [] [PaddleBundle.new 350 0 false] (spawn_gutters 800 600)
        [600] ∧
    runSys (fun _ _ _ _ => none) ⟨false, false⟩
        (World.mk [] [PaddleBundle.new 350 0 false] (spawn_gutters 800 600)
          [600]) Sys.handlePlayerInput =
      World.mk [] [PaddleBundle.new 350 0 false] (spawn_gutters 800 600)
        [600]) :=
  ⟨rfl, rfl,
   c9_missing_singleton (fun _ _ _ _ => none) ⟨false, false⟩ _ rfl rfl⟩

/-- C10: with two or more Ball entities the single-entity query fails
exactly as on absence, so ball integration and collision handling leave
the whole world unchanged, and with two or more Player paddles input
mapping leaves the whole world unchanged. -/
theorem c10_multiplicity (collide : Collide) (keys : KeyState)
    (w : World) (hball : 2 ≤ w.balls.length)
    (hplayer : 2 ≤ (w.paddles.filter (fun p => p.isPlayer)).length) :
    runSys collide keys w Sys.moveBall = w ∧
    runSys collide keys w Sys.handleCollisions = w ∧
    runSys collide keys w Sys.handlePlayerInput = w := by
  refine ⟨?_, ?_, ?_⟩
  · show { w with balls := move_ball w.balls } = w
    rw [move_ball_not_single w.balls (by omega)]
  · show { w with balls := handle_collisions collide w.balls (otherThings w) } = w
    rw [handle_collisions_not_single collide w.balls (otherThings w)
      (by omega)]
  · show { w with paddles := handle_player_input keys w.paddles } = w
    rw [handle_player_input_not_single keys w.paddles (by omega)]

theorem c10_multiplicity_witness :
    2 ≤ (World.mk [spawn_ball, spawn_ball]
        [PaddleBundle.new 350 0 true, PaddleBundle.new (-350) 0 true] []
        [600]).balls.length ∧
    2 ≤ ((World.mk [spawn_ball, spawn_ball]
        [PaddleBundle.new 350 0 true, PaddleBundle.new (-350) 0 true] []
        [600]).paddles.filter (fun p => p.isPlayer)).length ∧
    (runSys (fun _ _ _ _ => none) ⟨false, false⟩
        (World.mk [spawn_ball, spawn_ball]
          [PaddleBundle.new 350 0 true, PaddleBundle.new (-350) 0 true] []
          [600]) Sys.moveBall =
      World.mk [spawn_ball, spawn_ball]
        [PaddleBundle.new 350 0 true, PaddleBundle.new (-350) 0 true] []
        [600] ∧
    runSys (fun _ _ _ _ => none) ⟨false, false⟩
        (World.mk [spawn_ball, spawn_ball]
          [PaddleBundle.new 350 0 true, PaddleBundle.new (-350) 0 true] []
          [600]) Sys.handleCollisions =
      World.mk [spawn_ball, spawn_ball]
        [PaddleBundle.new 350 0 true, PaddleBundle.new (-350) 0 true] []
        [600] ∧
    runSys (fun _ _ _ _ => none) ⟨false, false⟩
        (World.mk [spawn_ball, spawn_ball]
          [PaddleBundle.new 350 0 true, PaddleBundle.new (-350) 0 true] []
          [600]) Sys.handlePlayerInput =
      World.mk [spawn_ball, spawn_ball]
        [PaddleBundle.new 350 0 true, PaddleBundle.new (-350) 0 true] []
        [600]) :=
  ⟨by decide, by decide,
   c10_multiplicity (fun _ _ _ _ => none) ⟨false, false⟩ _ (by decide)
     (by decide)⟩

end BevyPong
